import Mathlib

/-!
Shallow embedding of `http-graceful-shutdown` (src/lib/index.js).

The JavaScript module keeps three module-level variables shared by every
`GracefulShutdown(server, opts)` call: `isShuttingDown`, `connections`
(map from connection id to socket) and `connectionCounter`.  Each call
registers signal handlers, a `request` handler, a `connection` handler,
and a the process exit handler, and defines `shutdown(sig)` with a
local `cleanupHttp()`.

We model the whole process as a state machine `St` driven by events
(`Event`), with an append-only log of observable side effects
(`Action`) so that ordering properties can be stated.  Sockets are kept
in a heap (`sockets`), the registry `connections` holds the ids of the
registered sockets, mirroring `connections[id] = socket` /
`delete connections[id]` in the source.  Promise behaviour of the
`onShutdown` hook is modelled by a `HookOutcome` field of the options:
the source runs `options.onShutdown().then(function() { cleanupHttp() })`,
so `cleanupHttp` runs after the hook only when the promise resolves,
and never when it rejects or stays pending (no rejection handler is
ever attached).
-/

namespace HttpGracefulShutdown

/-- Behaviour of the promise returned by the configured `onShutdown` hook. -/
inductive HookOutcome where
  | resolved
  | rejected
  | pending
deriving Repr, DecidableEq

/-- Options after the `objectAssign` merge in `GracefulShutdown`.
`timeout = none` models the `timeout` key being absent from `opts`
(the merge then supplies the default `30000`); `some t` models a
numeric `timeout: t` in `opts` (which overrides the default, `0`
being falsy).  `onShutdownPresent`/`onShutdownIsFunc` model the
`options.onShutdown && isFunction(options.onShutdown)` check, and
likewise for `finally`. -/
structure Options where
  timeout : Option Nat
  development : Bool
  onShutdownPresent : Bool
  onShutdownIsFunc : Bool
  hookOutcome : HookOutcome
  finallyPresent : Bool
  finallyIsFunc : Bool
deriving Repr, DecidableEq

/-- `objectAssign({timeout: 30000, ...}, opts).timeout`: the default
`30000` applies exactly when the key is absent. -/
def mergedTimeout (o : Options) : Nat := o.timeout.getD 30000

/-- `options.onShutdown && isFunction(options.onShutdown)`. -/
def hookConfigured (o : Options) : Bool := o.onShutdownPresent && o.onShutdownIsFunc

/-- `options.finally && isFunction(options.finally)`. -/
def finallyConfigured (o : Options) : Bool := o.finallyPresent && o.finallyIsFunc

/-- A socket object: `_isIdle` and `_connectionId` as set by the
`connection` and `request` handlers, plus a `destroyed` flag recording
that `socket.destroy()` was called. -/
structure Socket where
  isIdle : Bool
  connectionId : Nat
  destroyed : Bool
deriving Repr, DecidableEq

/-- Observable side effects, logged in order of occurrence. -/
inductive Action where
  | startTimer (ms : Nat)
  | invokeHook
  | destroySocket (id : Nat)
  | serverClose (instIdx : Nat)
  | invokeFinally
  | exit (code : Nat)
deriving Repr, DecidableEq

/-- One `GracefulShutdown(server, opts)` instantiation: its merged
options and whether `server.close` has been called on its server. -/
structure Inst where
  opts : Options
  closeCalled : Bool
deriving Repr, DecidableEq

/-- Process state.  `isShuttingDown`, `connections` and
`connectionCounter` are the module-level variables of the source,
shared by all instances.  `timerArmed` records that the forced
`setTimeout` has been started, `exited` the `process.exit` code (if
any), `finallyCount` how many times a configured `finally` callback
has run, and `trace` the log of observable actions. -/
structure St where
  isShuttingDown : Bool
  connections : List Nat
  connectionCounter : Nat
  sockets : List Socket
  instances : List Inst
  timerArmed : Bool
  exited : Option Nat
  finallyCount : Nat
  trace : List Action
deriving Repr, DecidableEq

/-- Look a socket up by its `_connectionId`. -/
def findSock (s : St) (id : Nat) : Option Socket :=
  s.sockets.find? (fun sk => sk.connectionId == id)

/-- Mutate the socket object with the given id. -/
def updateSock (s : St) (id : Nat) (f : Socket → Socket) : St :=
  { s with sockets := s.sockets.map (fun sk => if sk.connectionId == id then f sk else sk) }

/-- `destroy(socket)` from the source:

    function destroy(socket) {
      if (socket._isIdle && isShuttingDown) {
        socket.destroy();
        delete connections[socket._connectionId];
      }
    }
-/
def destroy (s : St) (id : Nat) : St :=
  match findSock s id with
  | none => s
  | some sock =>
    if sock.isIdle && s.isShuttingDown then
      let s1 := updateSock s id (fun sk => { sk with destroyed := true })
      { s1 with connections := s1.connections.filter (fun k => k != id),
                trace := s1.trace ++ [Action.destroySocket id] }
    else s

/-- The process exit-event handlers: each instantiation registered
one, which runs `options.finally()` when it is present and a function. -/
def exitHandlerActions (insts : List Inst) : List Action :=
  (insts.filter (fun inst => finallyConfigured inst.opts)).map (fun _ => Action.invokeFinally)

/-- `process.exit(code)`: synchronously fires every registered `exit`
handler, then the process terminates with `code`. -/
def processExit (s : St) (code : Nat) : St :=
  let finActs := exitHandlerActions s.instances
  { s with exited := some code,
           finallyCount := s.finallyCount + finActs.length,
           trace := s.trace ++ finActs ++ [Action.exit code] }

/-- One iteration of `Object.keys(connections).forEach`: increment the
`counter` closure variable, then `destroy(connections[key])`. -/
def cleanupStep (acc : St × Nat) (key : Nat) : St × Nat :=
  (destroy acc.1 key, acc.2 + 1)

/-- Mark `server.close` as called on instance `i`. -/
def setCloseCalled (insts : List Inst) (i : Nat) : List Inst :=
  match insts[i]? with
  | some inst => insts.set i { inst with closeCalled := true }
  | none => insts

/-- `cleanupHttp()` from the source: iterate a snapshot of the registry
keys, incrementing `counter` for every key and calling `destroy` on its
socket, then call `server.close` (whose callback will `process.exit(0)`).
Returns the updated state together with the final value of `counter`
(the number the source logs as Connections destroyed). -/
def cleanupHttp (s : St) (i : Nat) : St × Nat :=
  let r := s.connections.foldl cleanupStep (s, 0)
  ({ r.1 with instances := setCloseCalled r.1.instances i,
              trace := r.1.trace ++ [Action.serverClose i] }, r.2)

/-- Models the `setTimeout` arm of `shutdown`: when the merged timeout
option is non-zero (truthy), start the forced-exit timer. -/
def armTimer (s : St) (o : Options) : St :=
  if mergedTimeout o ≠ 0 then
    { s with timerArmed := true,
             trace := s.trace ++ [Action.startTimer (mergedTimeout o)] }
  else s

/-- The body of the `if (!isShuttingDown)` branch of `shutdown`: set the
flag, maybe arm the timer, then either run the hook (with `cleanupHttp`
chained on its fulfillment) or run `cleanupHttp` directly. -/
def shutdownBody (s : St) (i : Nat) (o : Options) : St :=
  let s2 := armTimer { s with isShuttingDown := true } o
  if hookConfigured o then
    let s3 := { s2 with trace := s2.trace ++ [Action.invokeHook] }
    match o.hookOutcome with
    | HookOutcome.resolved => (cleanupHttp s3 i).1
    | _ => s3
  else (cleanupHttp s2 i).1

/-- `shutdown(sig)` as run by the signal handler of instance `i`.
The source first checks `options.development` (immediate
`process.exit(0)`), then guards on `!isShuttingDown`, sets the flag,
arms the timer when `options.timeout` is truthy, and finally either
chains `cleanupHttp` on the fulfillment of `options.onShutdown()` or
calls `cleanupHttp` directly.  A rejected or forever-pending hook
promise never runs `cleanupHttp`: only a fulfillment handler is
attached by `.then`. -/
def shutdown (s : St) (i : Nat) : St :=
  match s.instances[i]? with
  | none => s
  | some inst =>
    if inst.opts.development then
      processExit s 0
    else if s.isShuttingDown then s
    else shutdownBody s i inst.opts

/-- External events driving the process. -/
inductive Event where
  | connection (i : Nat)
  | requestStart (id : Nat)
  | requestFinish (id : Nat)
  | socketClose (id : Nat)
  | signal (i : Nat)
  | timerFire
  | closeConfirmed (i : Nat)
deriving Repr, DecidableEq

/-- The event-step function.  Once the process has exited no further
event is observed.  `connection i`: the `connection` handler of
instance `i` (`connectionCounter++`, `_isIdle = true`, register).
`requestStart` / `requestFinish`: the `request` handler and the
response `finish` listener.  `socketClose`: the socket `close`
listener (`delete connections[id]`).  `signal i`: the signal handler
registered by instance `i` runs `shutdown`.  `timerFire`: the forced
timeout fires (`process.exit(1)`).  `closeConfirmed i`: instance
the `server.close` callback of instance `i` fires (`process.exit(0)`). -/
def step (s : St) (e : Event) : St :=
  if s.exited.isSome then s else
  match e with
  | Event.connection i =>
    match s.instances[i]? with
    | none => s
    | some _ =>
      let id := s.connectionCounter
      { s with connectionCounter := id + 1,
               sockets := s.sockets ++ [{ isIdle := true, connectionId := id, destroyed := false }],
               connections := s.connections ++ [id] }
  | Event.requestStart id =>
    match findSock s id with
    | none => s
    | some _ => updateSock s id (fun sk => { sk with isIdle := false })
  | Event.requestFinish id =>
    match findSock s id with
    | none => s
    | some _ => destroy (updateSock s id (fun sk => { sk with isIdle := true })) id
  | Event.socketClose id =>
    { s with connections := s.connections.filter (fun k => k != id) }
  | Event.signal i => shutdown s i
  | Event.timerFire => if s.timerArmed then processExit s 1 else s
  | Event.closeConfirmed i =>
    match s.instances[i]? with
    | none => s
    | some inst => if inst.closeCalled then processExit s 0 else s

/-- Run a list of events from a state. -/
def run (s : St) (es : List Event) : St := es.foldl step s

/-- State at module load: `isShuttingDown = false`, `connections = {}`,
`connectionCounter = 0`, with the given instantiations. -/
def initSt (insts : List Inst) : St :=
  { isShuttingDown := false, connections := [], connectionCounter := 0,
    sockets := [], instances := insts, timerArmed := false,
    exited := none, finallyCount := 0, trace := [] }

/-! ### Concrete fixtures (used by witnesses and counterexamples) -/

/-- Defaults only: no hook, no finally, `timeout` key absent. -/
def optsPlain : Options :=
  { timeout := none, development := false, onShutdownPresent := false,
    onShutdownIsFunc := false, hookOutcome := HookOutcome.pending,
    finallyPresent := false, finallyIsFunc := false }

/-- A configured `onShutdown` hook whose promise resolves. -/
def optsHook : Options :=
  { optsPlain with onShutdownPresent := true, onShutdownIsFunc := true,
                   hookOutcome := HookOutcome.resolved }

/-- A configured `onShutdown` hook whose promise rejects. -/
def optsHookRejected : Options :=
  { optsHook with hookOutcome := HookOutcome.rejected }

/-- `development: true`. -/
def optsDev : Options := { optsPlain with development := true }

/-- `timeout: 0` passed explicitly. -/
def optsZeroTimeout : Options := { optsPlain with timeout := some 0 }

/-- A configured `finally` callback that is a function. -/
def optsFin : Options := { optsPlain with finallyPresent := true, finallyIsFunc := true }

def instPlain : Inst := { opts := optsPlain, closeCalled := false }

def instHook : Inst := { opts := optsHook, closeCalled := false }

def instHookRejected : Inst := { opts := optsHookRejected, closeCalled := false }

def instDev : Inst := { opts := optsDev, closeCalled := false }

def instZeroTimeout : Inst := { opts := optsZeroTimeout, closeCalled := false }

def instFin : Inst := { opts := optsFin, closeCalled := false }

/-! ### Trace classification helpers -/

/-- The ids of all socket objects, in heap order. -/
def sockIds (s : St) : List Nat := s.sockets.map (fun sk => sk.connectionId)

/-- A trace fragment consisting solely of `destroySocket` actions. -/
def onlyDestroys (tr : List Action) : Prop := ∀ a ∈ tr, ∃ id, a = Action.destroySocket id

def isStartTimerA (a : Action) : Bool :=
  match a with
  | Action.startTimer _ => true
  | _ => false

def isDestroyA (a : Action) : Bool :=
  match a with
  | Action.destroySocket _ => true
  | _ => false

def isCloseA (a : Action) : Bool :=
  match a with
  | Action.serverClose _ => true
  | _ => false

def isHookA (a : Action) : Bool :=
  match a with
  | Action.invokeHook => true
  | _ => false

def countTimer (tr : List Action) : Nat := tr.countP isStartTimerA

def countDestroy (tr : List Action) : Nat := tr.countP isDestroyA

def countClose (tr : List Action) : Nat := tr.countP isCloseA

def countHook (tr : List Action) : Nat := tr.countP isHookA

/-- The actions that arming (or not arming) the forced timer appends. -/
def timerPrefix (o : Options) : List Action :=
  if mergedTimeout o = 0 then [] else [Action.startTimer (mergedTimeout o)]

/-- Does some `invokeHook` action occur strictly before some
`destroySocket` action in the trace? -/
def hookBeforeReap (tr : List Action) : Bool :=
  match tr with
  | [] => false
  | Action.invokeHook :: rest => rest.any isDestroyA || hookBeforeReap rest
  | _ :: rest => hookBeforeReap rest

/-- Every instance is non-development, has a configured hook whose
promise rejects, and has not had `server.close` called. -/
def rejectedHookOnly (s : St) : Prop :=
  ∀ inst ∈ s.instances, inst.opts.development = false ∧
    hookConfigured inst.opts = true ∧
    inst.opts.hookOutcome = HookOutcome.rejected ∧
    inst.closeCalled = false

/-- A shutting-down state whose single registered connection (id 0) is
busy: reached by accepting a connection, starting a request on it, and
setting the module flag (as the `shutdown` of the source does before its
sweep). -/
def sBusy : St :=
  { run (initSt [instPlain]) [Event.connection 0, Event.requestStart 0] with
    isShuttingDown := true }

/-- Like `sBusy` but with a second, idle, connection (id 1). -/
def sMixed : St :=
  { run (initSt [instPlain]) [Event.connection 0, Event.connection 0, Event.requestStart 0] with
    isShuttingDown := true }

theorem onlyDestroys_nil : onlyDestroys [] := by
  intro a ha
  simp at ha

theorem onlyDestroys_single (id : Nat) : onlyDestroys [Action.destroySocket id] := by
  intro a ha
  simp at ha
  exact ⟨id, ha⟩

theorem onlyDestroys_append {l1 l2 : List Action} (h1 : onlyDestroys l1)
    (h2 : onlyDestroys l2) : onlyDestroys (l1 ++ l2) := by
  intro a ha
  rcases List.mem_append.mp ha with h | h
  · exact h1 a h
  · exact h2 a h

theorem countTimer_of_onlyDestroys {ds : List Action} (h : onlyDestroys ds) :
    countTimer ds = 0 := by
  unfold countTimer
  rw [List.countP_eq_zero]
  intro a ha
  obtain ⟨id, rfl⟩ := h a ha
  simp [isStartTimerA]

theorem countClose_of_onlyDestroys {ds : List Action} (h : onlyDestroys ds) :
    countClose ds = 0 := by
  unfold countClose
  rw [List.countP_eq_zero]
  intro a ha
  obtain ⟨id, rfl⟩ := h a ha
  simp [isCloseA]

theorem countHook_of_onlyDestroys {ds : List Action} (h : onlyDestroys ds) :
    countHook ds = 0 := by
  unfold countHook
  rw [List.countP_eq_zero]
  intro a ha
  obtain ⟨id, rfl⟩ := h a ha
  simp [isHookA]

/-! ### Field-preservation lemmas for the primitive operations -/

theorem sockIds_updateSock (s : St) (id : Nat) (f : Socket → Socket)
    (h : ∀ sk, (f sk).connectionId = sk.connectionId) :
    sockIds (updateSock s id f) = sockIds s := by
  unfold sockIds updateSock
  simp only [List.map_map]
  refine List.map_congr_left ?_
  intro sk _
  simp only [Function.comp_apply]
  by_cases hc : (sk.connectionId == id) = true
  · simp [hc, h]
  · simp [hc]

theorem destroy_fields (s : St) (id : Nat) :
    (destroy s id).isShuttingDown = s.isShuttingDown ∧
    (destroy s id).connectionCounter = s.connectionCounter ∧
    (destroy s id).instances = s.instances ∧
    (destroy s id).timerArmed = s.timerArmed ∧
    (destroy s id).exited = s.exited ∧
    (destroy s id).finallyCount = s.finallyCount ∧
    sockIds (destroy s id) = sockIds s ∧
    ∃ ds, onlyDestroys ds ∧ (destroy s id).trace = s.trace ++ ds := by
  unfold destroy
  split
  · exact ⟨rfl, rfl, rfl, rfl, rfl, rfl, rfl, [], onlyDestroys_nil, by simp⟩
  · split
    · refine ⟨rfl, rfl, rfl, rfl, rfl, rfl, ?_, [Action.destroySocket id],
        onlyDestroys_single id, rfl⟩
      exact sockIds_updateSock s id _ (fun sk => rfl)
    · exact ⟨rfl, rfl, rfl, rfl, rfl, rfl, rfl, [], onlyDestroys_nil, by simp⟩

theorem cleanupFold_fields (keys : List Nat) (s : St) (c : Nat) :
    (keys.foldl cleanupStep (s, c)).1.isShuttingDown = s.isShuttingDown ∧
    (keys.foldl cleanupStep (s, c)).1.connectionCounter = s.connectionCounter ∧
    (keys.foldl cleanupStep (s, c)).1.instances = s.instances ∧
    (keys.foldl cleanupStep (s, c)).1.timerArmed = s.timerArmed ∧
    (keys.foldl cleanupStep (s, c)).1.exited = s.exited ∧
    (keys.foldl cleanupStep (s, c)).1.finallyCount = s.finallyCount ∧
    sockIds (keys.foldl cleanupStep (s, c)).1 = sockIds s ∧
    (keys.foldl cleanupStep (s, c)).2 = c + keys.length ∧
    ∃ ds, onlyDestroys ds ∧ (keys.foldl cleanupStep (s, c)).1.trace = s.trace ++ ds := by
  induction keys generalizing s c with
  | nil =>
    refine ⟨rfl, rfl, rfl, rfl, rfl, rfl, rfl, by simp, [], onlyDestroys_nil, by simp⟩
  | cons k ks ih =>
    obtain ⟨d1, d2, d3, d4, d5, d6, d7, ds1, hds1, htr1⟩ := destroy_fields s k
    obtain ⟨e1, e2, e3, e4, e5, e6, e7, e8, ds2, hds2, htr2⟩ := ih (destroy s k) (c + 1)
    simp only [List.foldl_cons, cleanupStep]
    refine ⟨e1.trans d1, e2.trans d2, e3.trans d3, e4.trans d4, e5.trans d5,
      e6.trans d6, e7.trans d7, by rw [e8]; simp; omega,
      ds1 ++ ds2, onlyDestroys_append hds1 hds2, ?_⟩
    rw [htr2, htr1, List.append_assoc]

theorem cleanupHttp_fields (s : St) (i : Nat) :
    (cleanupHttp s i).1.isShuttingDown = s.isShuttingDown ∧
    (cleanupHttp s i).1.connectionCounter = s.connectionCounter ∧
    (cleanupHttp s i).1.timerArmed = s.timerArmed ∧
    (cleanupHttp s i).1.exited = s.exited ∧
    (cleanupHttp s i).1.finallyCount = s.finallyCount ∧
    sockIds (cleanupHttp s i).1 = sockIds s ∧
    (cleanupHttp s i).2 = s.connections.length ∧
    ∃ ds, onlyDestroys ds ∧
      (cleanupHttp s i).1.trace = s.trace ++ ds ++ [Action.serverClose i] := by
  obtain ⟨e1, e2, e3, e4, e5, e6, e7, e8, ds, hds, htr⟩ :=
    cleanupFold_fields s.connections s 0
  refine ⟨e1, e2, e4, e5, e6, e7, ?_, ds, hds, ?_⟩
  · show (s.connections.foldl cleanupStep (s, 0)).2 = s.connections.length
    rw [e8]
    simp
  · show (s.connections.foldl cleanupStep (s, 0)).1.trace ++ [Action.serverClose i]
        = s.trace ++ ds ++ [Action.serverClose i]
    rw [htr]

theorem exitHandlerActions_mem {insts : List Inst} {a : Action}
    (h : a ∈ exitHandlerActions insts) : a = Action.invokeFinally := by
  unfold exitHandlerActions at h
  obtain ⟨inst, _, he⟩ := List.mem_map.mp h
  exact he.symm

theorem processExit_countP (s : St) (code : Nat) (p : Action → Bool)
    (hfin : p Action.invokeFinally = false) (hexit : p (Action.exit code) = false) :
    List.countP p (processExit s code).trace = List.countP p s.trace := by
  show List.countP p (s.trace ++ exitHandlerActions s.instances ++ [Action.exit code])
      = List.countP p s.trace
  rw [List.countP_append, List.countP_append]
  have h1 : List.countP p (exitHandlerActions s.instances) = 0 := by
    rw [List.countP_eq_zero]
    intro a ha
    rw [exitHandlerActions_mem ha]
    simp [hfin]
  have h2 : List.countP p [Action.exit code] = 0 := by
    simp [hexit]
  rw [h1, h2]
  simp

theorem processExit_fields (s : St) (code : Nat) :
    (processExit s code).isShuttingDown = s.isShuttingDown ∧
    (processExit s code).connections = s.connections ∧
    (processExit s code).connectionCounter = s.connectionCounter ∧
    (processExit s code).sockets = s.sockets ∧
    (processExit s code).instances = s.instances ∧
    (processExit s code).timerArmed = s.timerArmed ∧
    (processExit s code).exited = some code ∧
    countTimer (processExit s code).trace = countTimer s.trace ∧
    countDestroy (processExit s code).trace = countDestroy s.trace ∧
    countClose (processExit s code).trace = countClose s.trace ∧
    countHook (processExit s code).trace = countHook s.trace := by
  exact ⟨rfl, rfl, rfl, rfl, rfl, rfl, rfl,
    processExit_countP s code isStartTimerA rfl rfl,
    processExit_countP s code isDestroyA rfl rfl,
    processExit_countP s code isCloseA rfl rfl,
    processExit_countP s code isHookA rfl rfl⟩

theorem armTimer_trace (s : St) (o : Options) :
    (armTimer s o).trace = s.trace ++ timerPrefix o := by
  unfold armTimer timerPrefix
  by_cases h : mergedTimeout o = 0
  · simp [h]
  · simp [h]

theorem armTimer_fields (s : St) (o : Options) :
    (armTimer s o).isShuttingDown = s.isShuttingDown ∧
    (armTimer s o).connections = s.connections ∧
    (armTimer s o).connectionCounter = s.connectionCounter ∧
    (armTimer s o).sockets = s.sockets ∧
    (armTimer s o).instances = s.instances ∧
    (armTimer s o).exited = s.exited ∧
    (armTimer s o).finallyCount = s.finallyCount := by
  unfold armTimer
  by_cases h : mergedTimeout o = 0
  · simp [h]
  · simp [h]

theorem armTimer_armed_of_zero (s : St) (o : Options) (h : mergedTimeout o = 0) :
    armTimer s o = s := by
  unfold armTimer
  simp [h]

theorem armTimer_armed_of_nonzero (s : St) (o : Options) (h : mergedTimeout o ≠ 0) :
    (armTimer s o).timerArmed = true := by
  unfold armTimer
  simp [h]

theorem shutdownBody_fields (s : St) (i : Nat) (o : Options) :
    (shutdownBody s i o).isShuttingDown = true ∧
    (shutdownBody s i o).connectionCounter = s.connectionCounter ∧
    (shutdownBody s i o).exited = s.exited ∧
    (shutdownBody s i o).finallyCount = s.finallyCount ∧
    sockIds (shutdownBody s i o) = sockIds s := by
  unfold shutdownBody
  set s2 := armTimer { s with isShuttingDown := true } o with hs2
  have h2 := armTimer_fields { s with isShuttingDown := true } o
  by_cases hk : hookConfigured o = true
  · simp only [hk, if_true]
    cases ho : o.hookOutcome
    · have h3 := cleanupHttp_fields { s2 with trace := s2.trace ++ [Action.invokeHook] } i
      refine ⟨h3.1.trans h2.1, h3.2.1.trans h2.2.2.1, ?_, ?_, ?_⟩
      · exact h3.2.2.2.1.trans h2.2.2.2.2.2.1
      · exact h3.2.2.2.2.1.trans h2.2.2.2.2.2.2
      · refine h3.2.2.2.2.2.1.trans ?_
        show sockIds s2 = sockIds s
        unfold sockIds
        rw [h2.2.2.2.1]
    · exact ⟨h2.1, h2.2.2.1, h2.2.2.2.2.2.1, h2.2.2.2.2.2.2, by unfold sockIds; rw [h2.2.2.2.1]⟩
    · exact ⟨h2.1, h2.2.2.1, h2.2.2.2.2.2.1, h2.2.2.2.2.2.2, by unfold sockIds; rw [h2.2.2.2.1]⟩
  · simp only [hk, Bool.false_eq_true, if_false]
    have h3 := cleanupHttp_fields s2 i
    refine ⟨h3.1.trans h2.1, h3.2.1.trans h2.2.2.1, h3.2.2.2.1.trans h2.2.2.2.2.2.1,
      h3.2.2.2.2.1.trans h2.2.2.2.2.2.2, ?_⟩
    refine h3.2.2.2.2.2.1.trans ?_
    unfold sockIds
    rw [h2.2.2.2.1]

theorem shutdownBody_timerArmed (s : St) (i : Nat) (o : Options) :
    (shutdownBody s i o).timerArmed
      = (armTimer { s with isShuttingDown := true } o).timerArmed := by
  unfold shutdownBody
  by_cases hk : hookConfigured o = true
  · simp only [hk, if_true]
    cases ho : o.hookOutcome
    · exact (cleanupHttp_fields
        { armTimer { s with isShuttingDown := true } o with
          trace := (armTimer { s with isShuttingDown := true } o).trace
            ++ [Action.invokeHook] } i).2.2.1
    · rfl
    · rfl
  · simp only [hk, Bool.false_eq_true, if_false]
    exact (cleanupHttp_fields (armTimer { s with isShuttingDown := true } o) i).2.2.1

theorem shutdownBody_trace_shape (s : St) (i : Nat) (o : Options) :
    ∃ suffix, countTimer suffix = 0 ∧
      (shutdownBody s i o).trace
        = (armTimer { s with isShuttingDown := true } o).trace ++ suffix := by
  unfold shutdownBody
  by_cases hk : hookConfigured o = true
  · simp only [hk, if_true]
    cases ho : o.hookOutcome
    · obtain ⟨_, _, _, _, _, _, _, ds, hds, htr⟩ := cleanupHttp_fields
        { armTimer { s with isShuttingDown := true } o with
          trace := (armTimer { s with isShuttingDown := true } o).trace
            ++ [Action.invokeHook] } i
      refine ⟨[Action.invokeHook] ++ ds ++ [Action.serverClose i], ?_, ?_⟩
      · have h3 := countTimer_of_onlyDestroys hds
        unfold countTimer at h3 ⊢
        rw [List.countP_append, List.countP_append]
        simp [h3, isStartTimerA]
      · rw [htr]
        show (armTimer { s with isShuttingDown := true } o).trace ++ [Action.invokeHook]
            ++ ds ++ [Action.serverClose i] = _
        simp [List.append_assoc]
    · exact ⟨[Action.invokeHook], rfl, rfl⟩
    · exact ⟨[Action.invokeHook], rfl, rfl⟩
  · simp only [hk, Bool.false_eq_true, if_false]
    obtain ⟨_, _, _, _, _, _, _, ds, hds, htr⟩ :=
      cleanupHttp_fields (armTimer { s with isShuttingDown := true } o) i
    refine ⟨ds ++ [Action.serverClose i], ?_, ?_⟩
    · have h3 := countTimer_of_onlyDestroys hds
      unfold countTimer at h3 ⊢
      rw [List.countP_append]
      simp [h3, isStartTimerA]
    · rw [htr, List.append_assoc]

theorem shutdownBody_trace_hook_resolved (s : St) (i : Nat) (o : Options)
    (hk : hookConfigured o = true) (ho : o.hookOutcome = HookOutcome.resolved) :
    ∃ ds, onlyDestroys ds ∧
      (shutdownBody s i o).trace
        = s.trace ++ timerPrefix o ++ [Action.invokeHook] ++ ds
          ++ [Action.serverClose i] := by
  unfold shutdownBody
  simp only [hk, if_true, ho]
  obtain ⟨_, _, _, _, _, _, _, ds, hds, htr⟩ := cleanupHttp_fields
    { armTimer { s with isShuttingDown := true } o with
      trace := (armTimer { s with isShuttingDown := true } o).trace
        ++ [Action.invokeHook] } i
  refine ⟨ds, hds, ?_⟩
  rw [htr]
  show (armTimer { s with isShuttingDown := true } o).trace ++ [Action.invokeHook]
      ++ ds ++ [Action.serverClose i] = _
  rw [armTimer_trace]

theorem shutdownBody_rejected (s : St) (i : Nat) (o : Options)
    (hk : hookConfigured o = true) (ho : o.hookOutcome = HookOutcome.rejected) :
    (shutdownBody s i o).instances = s.instances ∧
    (shutdownBody s i o).exited = s.exited ∧
    countClose (shutdownBody s i o).trace = countClose s.trace := by
  unfold shutdownBody
  simp only [hk, if_true, ho]
  have h2 := armTimer_fields { s with isShuttingDown := true } o
  refine ⟨h2.2.2.2.2.1, h2.2.2.2.2.2.1, ?_⟩
  show countClose ((armTimer { s with isShuttingDown := true } o).trace
      ++ [Action.invokeHook]) = countClose s.trace
  rw [armTimer_trace]
  show countClose (s.trace ++ timerPrefix o ++ [Action.invokeHook]) = countClose s.trace
  unfold countClose timerPrefix
  rw [List.countP_append, List.countP_append]
  by_cases hm : mergedTimeout o = 0
  · simp [hm, isCloseA]
  · simp [hm, isCloseA]

theorem processExit_countTimer (s : St) (code : Nat) :
    countTimer (processExit s code).trace = countTimer s.trace :=
  processExit_countP s code isStartTimerA rfl rfl

theorem processExit_countDestroy (s : St) (code : Nat) :
    countDestroy (processExit s code).trace = countDestroy s.trace :=
  processExit_countP s code isDestroyA rfl rfl

theorem processExit_countClose (s : St) (code : Nat) :
    countClose (processExit s code).trace = countClose s.trace :=
  processExit_countP s code isCloseA rfl rfl

theorem processExit_countHook (s : St) (code : Nat) :
    countHook (processExit s code).trace = countHook s.trace :=
  processExit_countP s code isHookA rfl rfl

/-! ### Step-level helper lemmas -/

theorem step_of_exited {s : St} (e : Event) {c : Nat} (h : s.exited = some c) :
    step s e = s := by
  unfold step
  simp [h]

theorem destroy_of_busy {s : St} {id : Nat} {sock : Socket}
    (hf : findSock s id = some sock) (hidle : sock.isIdle = false) :
    destroy s id = s := by
  unfold destroy
  simp [hf, hidle]

theorem destroy_of_not_shuttingDown {s : St} (id : Nat)
    (h : s.isShuttingDown = false) : destroy s id = s := by
  unfold destroy
  cases hf : findSock s id with
  | none => simp [hf]
  | some sock => simp [hf, h]

theorem step_mono_shuttingDown (s : St) (e : Event) (h : s.isShuttingDown = true) :
    (step s e).isShuttingDown = true := by
  unfold step
  by_cases hex : s.exited.isSome = true
  · simpa [hex] using h
  · simp only [hex, Bool.false_eq_true, if_false]
    cases e with
    | connection i =>
      cases hi : s.instances[i]? <;> simp [hi, h]
    | requestStart id =>
      cases hf : findSock s id <;> simp [hf, h, updateSock]
    | requestFinish id =>
      cases hf : findSock s id
      · simp [hf, h]
      · simp only [hf]
        have hd := (destroy_fields (updateSock s id (fun sk => { sk with isIdle := true })) id).1
        rw [hd]
        simpa [updateSock] using h
    | socketClose id => simpa using h
    | signal i =>
      unfold shutdown
      cases hi : s.instances[i]? with
      | none => simp [hi, h]
      | some inst =>
        by_cases hdev : inst.opts.development = true
        · simp [hi, hdev, (processExit_fields s 0).1, h]
        · simp [hi, hdev, h]
    | timerFire =>
      by_cases ht : s.timerArmed = true
      · simp [ht, (processExit_fields s 1).1, h]
      · simp [ht, h]
    | closeConfirmed i =>
      cases hi : s.instances[i]? with
      | none => simp [hi, h]
      | some inst =>
        by_cases hc : inst.closeCalled = true
        · simp [hi, hc, (processExit_fields s 0).1, h]
        · simp [hi, hc, h]

theorem shutdown_of_shuttingDown {s : St} {i : Nat} {inst : Inst}
    (hi : s.instances[i]? = some inst) (hdev : inst.opts.development = false)
    (hsd : s.isShuttingDown = true) : shutdown s i = s := by
  unfold shutdown
  rw [hi]
  simp [hdev, hsd]

theorem find_map_update (l : List Socket) (id : Nat) (f : Socket → Socket)
    (hpres : ∀ sk, (f sk).connectionId = sk.connectionId) :
    (l.map (fun sk => if sk.connectionId == id then f sk else sk)).find?
        (fun sk => sk.connectionId == id)
      = Option.map f (l.find? (fun sk => sk.connectionId == id)) := by
  induction l with
  | nil => rfl
  | cons x xs ih =>
    by_cases hx : (x.connectionId == id) = true
    · have hfx : ((f x).connectionId == id) = true := by
        rw [hpres]
        exact hx
      rw [List.map_cons, if_pos hx]
      simp only [List.find?, hfx, hx]
      rfl
    · have hx2 : (x.connectionId == id) = false := Bool.eq_false_iff.mpr hx
      rw [List.map_cons, if_neg hx]
      simp only [List.find?, hx2]
      exact ih

theorem findSock_updateSock (s : St) (id : Nat) (f : Socket → Socket)
    (hpres : ∀ sk, (f sk).connectionId = sk.connectionId) :
    findSock (updateSock s id f) id = Option.map f (findSock s id) :=
  find_map_update s.sockets id f hpres

theorem not_mem_filter_ne (l : List Nat) (id : Nat) :
    id ∉ l.filter (fun k => k != id) := by
  intro h
  have h2 := (List.mem_filter.mp h).2
  simp at h2

/-! ### Claim theorems -/

/-- C4: calling trigger a second (and any later) time while the state is
already SHUTTING_DOWN is a no-op — the whole step leaves the state
unchanged, so the reap/hook/close sequence runs exactly once and the
forced-exit timer is started at most once — and the shutdown flag,
once SHUTTING_DOWN, never reverts to RUNNING under any event. -/
theorem trigger_idempotent_and_flag_monotone :
    (∀ (s : St) (i : Nat) (inst : Inst), s.instances[i]? = some inst →
      inst.opts.development = false → s.isShuttingDown = true →
      step s (Event.signal i) = s) ∧
    (∀ (s : St) (e : Event), s.isShuttingDown = true →
      (step s e).isShuttingDown = true) := by
  constructor
  · intro s i inst hi hdev hsd
    unfold step
    by_cases hex : s.exited.isSome = true
    · simp [hex]
    · simp only [hex, Bool.false_eq_true, if_false]
      exact shutdown_of_shuttingDown hi hdev hsd
  · exact step_mono_shuttingDown

/-- C5: a connection whose idle flag is false is never destroyed by
`destroy` (the primitive used both by the shutdown reap sweep and by
the request-finish handler); `destroy` is a no-op altogether while the
shutdown flag is still RUNNING; and no step that starts and ends with
the flag RUNNING ever appends a `destroySocket` action. -/
theorem busy_and_running_never_destroyed :
    (∀ (s : St) (id : Nat) (sock : Socket), findSock s id = some sock →
      sock.isIdle = false → destroy s id = s) ∧
    (∀ (s : St) (id : Nat), s.isShuttingDown = false → destroy s id = s) ∧
    (∀ (s : St) (e : Event), s.isShuttingDown = false →
      (step s e).isShuttingDown = false →
      countDestroy (step s e).trace = countDestroy s.trace) := by
  refine ⟨fun s id sock hf hidle => destroy_of_busy hf hidle,
    fun s id h => destroy_of_not_shuttingDown id h, ?_⟩
  intro s e hsd hpost
  by_cases hex : s.exited.isSome = true
  · obtain ⟨c, hc⟩ := Option.isSome_iff_exists.mp hex
    rw [step_of_exited e hc]
  · unfold step
    simp only [hex, Bool.false_eq_true, if_false]
    cases e with
    | connection i =>
      cases hi : s.instances[i]? <;> simp [hi]
    | requestStart id =>
      cases hf : findSock s id <;> simp [hf, updateSock]
    | requestFinish id =>
      cases hf : findSock s id with
      | none => simp [hf]
      | some sock =>
        simp only [hf]
        have hupd : (updateSock s id fun sk => { sk with isIdle := true }).isShuttingDown
            = false := hsd
        rw [destroy_of_not_shuttingDown id hupd]
        simp [updateSock]
    | socketClose id => simp
    | signal i =>
      unfold shutdown
      cases hi : s.instances[i]? with
      | none => simp [hi]
      | some inst =>
        by_cases hdev : inst.opts.development = true
        · simp only [hi, hdev, if_true]
          exact processExit_countDestroy s 0
        · exfalso
          have hstep : step s (Event.signal i) = shutdownBody s i inst.opts := by
            unfold step shutdown
            simp [hex, hi, hdev, hsd]
          rw [hstep, (shutdownBody_fields s i inst.opts).1] at hpost
          simp at hpost
    | timerFire =>
      by_cases ht : s.timerArmed = true
      · simp only [ht, if_true]
        exact processExit_countDestroy s 1
      · simp [ht]
    | closeConfirmed i =>
      cases hi : s.instances[i]? with
      | none => simp [hi]
      | some inst =>
        by_cases hc : inst.closeCalled = true
        · simp only [hi, hc, if_true]
          exact processExit_countDestroy s 0
        · simp [hi, hc]

/-- Witness for C5: destroying a busy connection is a no-op at a
concrete reachable state. -/
theorem busy_and_running_never_destroyed_witness :
    destroy (run (initSt [instPlain]) [Event.connection 0, Event.requestStart 0]) 0
      = run (initSt [instPlain]) [Event.connection 0, Event.requestStart 0] :=
  busy_and_running_never_destroyed.1 _ 0
    { isIdle := false, connectionId := 0, destroyed := false } (by decide) (by decide)

/-- C7: with `development: true`, any trigger call is exactly
`process.exit(0)`: no reap, no hook invocation, no forced-exit timer,
no `server.close`, and the state is otherwise untouched. -/
theorem development_fast_path (s : St) (i : Nat) (inst : Inst)
    (hex : s.exited = none) (hi : s.instances[i]? = some inst)
    (hdev : inst.opts.development = true) :
    step s (Event.signal i) = processExit s 0 ∧
    (step s (Event.signal i)).exited = some 0 ∧
    (step s (Event.signal i)).isShuttingDown = s.isShuttingDown ∧
    (step s (Event.signal i)).connections = s.connections ∧
    (step s (Event.signal i)).sockets = s.sockets ∧
    (step s (Event.signal i)).timerArmed = s.timerArmed ∧
    countDestroy (step s (Event.signal i)).trace = countDestroy s.trace ∧
    countHook (step s (Event.signal i)).trace = countHook s.trace ∧
    countClose (step s (Event.signal i)).trace = countClose s.trace ∧
    countTimer (step s (Event.signal i)).trace = countTimer s.trace := by
  have hstep : step s (Event.signal i) = processExit s 0 := by
    unfold step shutdown
    simp [hex, hi, hdev]
  rw [hstep]
  exact ⟨rfl, rfl, rfl, rfl, rfl, rfl, processExit_countDestroy s 0,
    processExit_countHook s 0, processExit_countClose s 0, processExit_countTimer s 0⟩

/-- Witness for C7 at a concrete state with one open connection. -/
theorem development_fast_path_witness :
    (step (run (initSt [instDev]) [Event.connection 0]) (Event.signal 0)).exited = some 0 ∧
    (step (run (initSt [instDev]) [Event.connection 0]) (Event.signal 0)).isShuttingDown
      = (run (initSt [instDev]) [Event.connection 0]).isShuttingDown ∧
    countDestroy (step (run (initSt [instDev]) [Event.connection 0]) (Event.signal 0)).trace
      = countDestroy (run (initSt [instDev]) [Event.connection 0]).trace :=
  let h := development_fast_path (run (initSt [instDev]) [Event.connection 0]) 0 instDev
    (by decide) (by decide) (by decide)
  ⟨h.2.1, h.2.2.1, h.2.2.2.2.2.2.1⟩

/-- Witness for C4 at a concrete state: a second trigger on an
already-shutting-down process changes nothing. -/
theorem trigger_idempotent_and_flag_monotone_witness :
    step (run (initSt [instPlain]) [Event.signal 0]) (Event.signal 0)
      = run (initSt [instPlain]) [Event.signal 0] :=
  trigger_idempotent_and_flag_monotone.1 _ 0 { instPlain with closeCalled := true }
    (by decide) (by decide) (by decide)

/-- C6: when a request finishes on connection `id`, the idle
flag becomes true; and if the process is SHUTTING_DOWN at that moment
the connection is immediately reclaimed: its id leaves the registry,
the socket is destroyed, and a `destroySocket` action is logged in the
same step (no further sweep is needed). -/
theorem request_finish_sets_idle_and_drains (s : St) (id : Nat) (sock : Socket)
    (hex : s.exited = none) (hf : findSock s id = some sock) :
    (∃ sk, findSock (step s (Event.requestFinish id)) id = some sk ∧ sk.isIdle = true) ∧
    (s.isShuttingDown = true →
      id ∉ (step s (Event.requestFinish id)).connections ∧
      (∃ sk, findSock (step s (Event.requestFinish id)) id = some sk ∧
        sk.destroyed = true ∧ sk.isIdle = true) ∧
      countDestroy (step s (Event.requestFinish id)).trace = countDestroy s.trace + 1) := by
  have hstep : step s (Event.requestFinish id)
      = destroy (updateSock s id fun sk => { sk with isIdle := true }) id := by
    unfold step
    simp [hex, hf]
  have hfu : findSock (updateSock s id fun sk => { sk with isIdle := true }) id
      = some { sock with isIdle := true } := by
    rw [findSock_updateSock s id (fun sk => { sk with isIdle := true }) (fun sk => rfl), hf]
    rfl
  by_cases hsd : s.isShuttingDown = true
  · have husd : (updateSock s id fun sk => { sk with isIdle := true }).isShuttingDown
        = true := hsd
    have hdestroy : destroy (updateSock s id fun sk => { sk with isIdle := true }) id
        = { updateSock (updateSock s id fun sk => { sk with isIdle := true }) id
              (fun sk => { sk with destroyed := true }) with
            connections := s.connections.filter (fun k => k != id),
            trace := s.trace ++ [Action.destroySocket id] } := by
      unfold destroy
      rw [hfu]
      simp [husd, hsd, updateSock]
    have hfind2 : findSock (step s (Event.requestFinish id)) id
        = some { sock with isIdle := true, destroyed := true } := by
      rw [hstep, hdestroy]
      show findSock (updateSock (updateSock s id fun sk => { sk with isIdle := true }) id
        (fun sk => { sk with destroyed := true })) id = _
      rw [findSock_updateSock (updateSock s id fun sk => { sk with isIdle := true }) id
        (fun sk => { sk with destroyed := true }) (fun sk => rfl), hfu]
      rfl
    refine ⟨⟨{ sock with isIdle := true, destroyed := true }, hfind2, rfl⟩, fun _ => ?_⟩
    refine ⟨?_, ⟨{ sock with isIdle := true, destroyed := true }, hfind2, rfl, rfl⟩, ?_⟩
    · rw [hstep, hdestroy]
      exact not_mem_filter_ne s.connections id
    · rw [hstep, hdestroy]
      show countDestroy (s.trace ++ [Action.destroySocket id]) = countDestroy s.trace + 1
      unfold countDestroy
      rw [List.countP_append]
      simp [isDestroyA]
  · have husd : (updateSock s id fun sk => { sk with isIdle := true }).isShuttingDown
        = false := Bool.eq_false_iff.mpr hsd
    have hne : destroy (updateSock s id fun sk => { sk with isIdle := true }) id
        = updateSock s id fun sk => { sk with isIdle := true } :=
      destroy_of_not_shuttingDown id husd
    refine ⟨⟨{ sock with isIdle := true }, ?_, rfl⟩, fun h => absurd h hsd⟩
    rw [hstep, hne]
    exact hfu

/-- Witness for C6: with shutdown in progress and connection 0 busy,
the finish of its request immediately destroys and deregisters it. -/
theorem request_finish_sets_idle_and_drains_witness :
    0 ∉ (step (run (initSt [instPlain])
          [Event.connection 0, Event.requestStart 0, Event.signal 0])
        (Event.requestFinish 0)).connections ∧
    (∃ sk, findSock (step (run (initSt [instPlain])
          [Event.connection 0, Event.requestStart 0, Event.signal 0])
        (Event.requestFinish 0)) 0 = some sk ∧
      sk.destroyed = true ∧ sk.isIdle = true) ∧
    countDestroy (step (run (initSt [instPlain])
          [Event.connection 0, Event.requestStart 0, Event.signal 0])
        (Event.requestFinish 0)).trace
      = countDestroy (run (initSt [instPlain])
          [Event.connection 0, Event.requestStart 0, Event.signal 0]).trace + 1 :=
  (request_finish_sets_idle_and_drains
    (run (initSt [instPlain]) [Event.connection 0, Event.requestStart 0, Event.signal 0])
    0 { isIdle := false, connectionId := 0, destroyed := false }
    (by decide) (by decide)).2 (by decide)

theorem step_counter_sockIds (s : St) (e : Event) :
    ((step s e).connectionCounter = s.connectionCounter ∧ sockIds (step s e) = sockIds s) ∨
    ((step s e).connectionCounter = s.connectionCounter + 1 ∧
      sockIds (step s e) = sockIds s ++ [s.connectionCounter]) := by
  by_cases hex : s.exited.isSome = true
  · left
    unfold step
    simp [hex]
  · unfold step
    simp only [hex, Bool.false_eq_true, if_false]
    cases e with
    | connection i =>
      cases hi : s.instances[i]? with
      | none => left; simp [hi]
      | some inst =>
        right
        constructor
        · simp [hi]
        · unfold sockIds
          simp [hi]
    | requestStart id =>
      left
      cases hf : findSock s id with
      | none => simp [hf]
      | some sock =>
        simp only [hf]
        exact ⟨rfl, sockIds_updateSock s id _ (fun sk => rfl)⟩
    | requestFinish id =>
      left
      cases hf : findSock s id with
      | none => simp [hf]
      | some sock =>
        simp only [hf]
        obtain ⟨_, d2, _, _, _, _, d7, _⟩ :=
          destroy_fields (updateSock s id fun sk => { sk with isIdle := true }) id
        refine ⟨d2.trans rfl, d7.trans ?_⟩
        exact sockIds_updateSock s id _ (fun sk => rfl)
    | socketClose id => left; exact ⟨rfl, rfl⟩
    | signal i =>
      left
      unfold shutdown
      cases hi : s.instances[i]? with
      | none => simp [hi]
      | some inst =>
        by_cases hdev : inst.opts.development = true
        · simp only [hi, hdev, if_true]
          obtain ⟨_, _, p3, p4, _⟩ := processExit_fields s 0
          exact ⟨p3, by unfold sockIds; rw [p4]⟩
        · by_cases hsd : s.isShuttingDown = true
          · simp [hi, hdev, hsd]
          · have hsd2 : s.isShuttingDown = false := Bool.eq_false_iff.mpr hsd
            simp only [hi, hdev, hsd2, Bool.false_eq_true, if_false]
            obtain ⟨_, b2, _, _, b5⟩ := shutdownBody_fields s i inst.opts
            exact ⟨b2, b5⟩
    | timerFire =>
      left
      by_cases ht : s.timerArmed = true
      · simp only [ht, if_true]
        obtain ⟨_, _, p3, p4, _⟩ := processExit_fields s 1
        exact ⟨p3, by unfold sockIds; rw [p4]⟩
      · simp [ht]
    | closeConfirmed i =>
      left
      cases hi : s.instances[i]? with
      | none => simp [hi]
      | some inst =>
        by_cases hc : inst.closeCalled = true
        · simp only [hi, hc, if_true]
          obtain ⟨_, _, p3, p4, _⟩ := processExit_fields s 0
          exact ⟨p3, by unfold sockIds; rw [p4]⟩
        · simp [hi, hc]

/-- C8: a `finally` callback configured as a function on the sole
instance runs exactly once per process lifetime, synchronously at
process exit, whichever exit path is taken: `process.exit` bumps the
count by one; the development trigger, the forced-timeout firing and
the close-callback paths all are exactly `process.exit`; after the
process has exited, no event changes anything; and a step that leaves
the process still running never runs the callback. -/
theorem finally_runs_once_per_exit :
    (∀ (s : St) (inst : Inst) (c : Nat), s.instances = [inst] →
      finallyConfigured inst.opts = true →
      (processExit s c).finallyCount = s.finallyCount + 1) ∧
    (∀ (s : St) (i : Nat) (inst : Inst), s.exited = none → s.instances[i]? = some inst →
      inst.opts.development = true → step s (Event.signal i) = processExit s 0) ∧
    (∀ (s : St), s.exited = none → s.timerArmed = true →
      step s Event.timerFire = processExit s 1) ∧
    (∀ (s : St) (i : Nat) (inst : Inst), s.exited = none → s.instances[i]? = some inst →
      inst.closeCalled = true → step s (Event.closeConfirmed i) = processExit s 0) ∧
    (∀ (s : St) (e : Event) (c : Nat), s.exited = some c → step s e = s) ∧
    (∀ (s : St) (e : Event), (step s e).exited = none →
      (step s e).finallyCount = s.finallyCount) := by
  refine ⟨?_, ?_, ?_, ?_, ?_, ?_⟩
  · intro s inst c hinst hfin
    show s.finallyCount + (exitHandlerActions s.instances).length = s.finallyCount + 1
    rw [hinst]
    unfold exitHandlerActions
    simp [hfin]
  · intro s i inst hex hi hdev
    unfold step shutdown
    simp [hex, hi, hdev]
  · intro s hex ht
    unfold step
    simp [hex, ht]
  · intro s i inst hex hi hc
    unfold step
    simp [hex, hi, hc]
  · intro s e c hc
    exact step_of_exited e hc
  · intro s e hpost
    by_cases hex : s.exited.isSome = true
    · obtain ⟨c, hc⟩ := Option.isSome_iff_exists.mp hex
      rw [step_of_exited e hc]
    · have hpe : ∀ c : Nat, step s e ≠ processExit s c := by
        intro c heq
        rw [heq] at hpost
        obtain ⟨_, _, _, _, _, _, p7, _⟩ := processExit_fields s c
        rw [p7] at hpost
        cases hpost
      revert hpe hpost
      unfold step
      simp only [hex, Bool.false_eq_true, if_false]
      cases e with
      | connection i =>
        intro _ _
        cases hi : s.instances[i]? <;> simp [hi]
      | requestStart id =>
        intro _ _
        cases hf : findSock s id <;> simp [hf, updateSock]
      | requestFinish id =>
        intro _ _
        cases hf : findSock s id with
        | none => simp [hf]
        | some sock =>
          simp only [hf]
          obtain ⟨_, _, _, _, _, d6, _, _⟩ :=
            destroy_fields (updateSock s id fun sk => { sk with isIdle := true }) id
          exact d6.trans rfl
      | socketClose id =>
        intro _ _
        rfl
      | signal i =>
        unfold shutdown
        cases hi : s.instances[i]? with
        | none =>
          intro _ _
          simp [hi]
        | some inst =>
          by_cases hdev : inst.opts.development = true
          · simp only [hi, hdev, if_true]
            intro _ hpe
            exact absurd rfl (hpe 0)
          · by_cases hsd : s.isShuttingDown = true
            · intro _ _
              simp [hi, hdev, hsd]
            · have hsd2 : s.isShuttingDown = false := Bool.eq_false_iff.mpr hsd
              simp only [hi, hdev, hsd2, Bool.false_eq_true, if_false]
              intro _ _
              exact (shutdownBody_fields s i inst.opts).2.2.2.1
      | timerFire =>
        by_cases ht : s.timerArmed = true
        · simp only [ht, if_true]
          intro _ hpe
          exact absurd rfl (hpe 1)
        · intro _ _
          simp [ht]
      | closeConfirmed i =>
        cases hi : s.instances[i]? with
        | none =>
          intro _ _
          simp [hi]
        | some inst =>
          by_cases hc : inst.closeCalled = true
          · simp only [hi, hc, if_true]
            intro _ hpe
            exact absurd rfl (hpe 0)
          · intro _ _
            simp [hi, hc]

/-- Witness for C8: the graceful close-callback exit path runs the
configured callback exactly once at a concrete state. -/
theorem finally_runs_once_per_exit_witness :
    (processExit (initSt [instFin]) 0).finallyCount
      = (initSt [instFin]).finallyCount + 1 ∧
    step (run (initSt [instFin]) [Event.signal 0]) (Event.closeConfirmed 0)
      = processExit (run (initSt [instFin]) [Event.signal 0]) 0 :=
  ⟨finally_runs_once_per_exit.1 (initSt [instFin]) instFin 0 rfl (by decide),
   finally_runs_once_per_exit.2.2.2.1 (run (initSt [instFin]) [Event.signal 0]) 0
     { instFin with closeCalled := true } (by decide) (by decide) (by decide)⟩

/-- C9: the shutdown flag, registry and connection counter are one
process-wide state shared by all instances: a connection accepted
through any instance is assigned the current value of the single counter and
appended to the single registry; the counter never decreases under any
event and every socket id stays strictly below it (so ids are never
reused across instances); and a trigger through any one instance sets
the single shutdown flag. -/
theorem module_state_shared :
    (∀ (s : St) (i : Nat) (inst : Inst), s.exited = none → s.instances[i]? = some inst →
      (step s (Event.connection i)).connections = s.connections ++ [s.connectionCounter] ∧
      (step s (Event.connection i)).connectionCounter = s.connectionCounter + 1 ∧
      (step s (Event.connection i)).sockets = s.sockets ++
        [{ isIdle := true, connectionId := s.connectionCounter, destroyed := false }]) ∧
    (∀ (s : St) (e : Event), s.connectionCounter ≤ (step s e).connectionCounter) ∧
    (∀ (s : St) (e : Event), (∀ n ∈ sockIds s, n < s.connectionCounter) →
      ∀ n ∈ sockIds (step s e), n < (step s e).connectionCounter) ∧
    (∀ (s : St) (i : Nat) (inst : Inst), s.exited = none → s.instances[i]? = some inst →
      inst.opts.development = false → s.isShuttingDown = false →
      (step s (Event.signal i)).isShuttingDown = true) := by
  refine ⟨?_, ?_, ?_, ?_⟩
  · intro s i inst hex hi
    have hstep : step s (Event.connection i)
        = { s with connectionCounter := s.connectionCounter + 1,
                   sockets := s.sockets ++
                     [{ isIdle := true, connectionId := s.connectionCounter, destroyed := false }],
                   connections := s.connections ++ [s.connectionCounter] } := by
      unfold step
      simp [hex, hi]
    rw [hstep]
    exact ⟨rfl, rfl, rfl⟩
  · intro s e
    rcases step_counter_sockIds s e with ⟨h, _⟩ | ⟨h, _⟩ <;> rw [h] <;> omega
  · intro s e h0 n hn
    rcases step_counter_sockIds s e with ⟨h1, h2⟩ | ⟨h1, h2⟩
    · rw [h1]
      rw [h2] at hn
      exact h0 n hn
    · rw [h1]
      rw [h2] at hn
      rcases List.mem_append.mp hn with h | h
      · have := h0 n h
        omega
      · simp at h
        omega
  · intro s i inst hex hi hdev hsd
    have hstep : step s (Event.signal i) = shutdownBody s i inst.opts := by
      unfold step shutdown
      simp [hex, hi, hdev, hsd]
    rw [hstep]
    exact (shutdownBody_fields s i inst.opts).1

/-- Witness for C9 with two instances: a connection through the second
instance draws from the same counter already advanced by the first, and
a trigger through the second instance flips the shared flag. -/
theorem module_state_shared_witness :
    (step (run (initSt [instPlain, instFin]) [Event.connection 0]) (Event.connection 1)).connections
      = (run (initSt [instPlain, instFin]) [Event.connection 0]).connections ++ [1] ∧
    (step (run (initSt [instPlain, instFin]) [Event.connection 0]) (Event.connection 1)).connectionCounter = 2 ∧
    (step (run (initSt [instPlain, instFin]) [Event.connection 0]) (Event.signal 1)).isShuttingDown = true :=
  ⟨((module_state_shared.1 (run (initSt [instPlain, instFin]) [Event.connection 0]) 1 instFin
      (by decide) (by decide)).1).trans (by decide),
   ((module_state_shared.1 (run (initSt [instPlain, instFin]) [Event.connection 0]) 1 instFin
      (by decide) (by decide)).2.1).trans (by decide),
   module_state_shared.2.2.2 (run (initSt [instPlain, instFin]) [Event.connection 0]) 1 instFin
      (by decide) (by decide) (by decide) (by decide)⟩

/-- C3 counterexample: the `timeout` key being absent from the options
does not disable the forced-timeout path: triggering shutdown arms a
forced-exit timer with the default duration of 30000 ms. -/
theorem absent_timeout_starts_timer_cex :
    optsPlain.timeout = none ∧
    (step (initSt [instPlain]) (Event.signal 0)).timerArmed = true ∧
    Action.startTimer 30000 ∈ (step (initSt [instPlain]) (Event.signal 0)).trace :=
  ⟨rfl, by decide, by decide⟩

/-- C3 amended: an absent `timeout` key defaults to 30000 (so a timer
IS started); an explicitly configured value is used as-is; a zero (or
otherwise falsy) merged timeout starts no timer on an effective
trigger; a non-zero merged timeout arms a one-shot timer of exactly
that duration; and the timer firing exits the process with status 1. -/
theorem forced_timeout_behaviour (s : St) (i : Nat) (inst : Inst)
    (hex : s.exited = none) (hi : s.instances[i]? = some inst)
    (hdev : inst.opts.development = false) (hsd : s.isShuttingDown = false) :
    (∀ o : Options, o.timeout = none → mergedTimeout o = 30000) ∧
    (∀ (o : Options) (t : Nat), o.timeout = some t → mergedTimeout o = t) ∧
    (mergedTimeout inst.opts = 0 →
      (step s (Event.signal i)).timerArmed = s.timerArmed ∧
      countTimer (step s (Event.signal i)).trace = countTimer s.trace) ∧
    (mergedTimeout inst.opts ≠ 0 →
      (step s (Event.signal i)).timerArmed = true ∧
      Action.startTimer (mergedTimeout inst.opts) ∈ (step s (Event.signal i)).trace) ∧
    (∀ s2 : St, s2.exited = none → s2.timerArmed = true →
      (step s2 Event.timerFire).exited = some 1) := by
  have hstep : step s (Event.signal i) = shutdownBody s i inst.opts := by
    unfold step shutdown
    simp [hex, hi, hdev, hsd]
  refine ⟨?_, ?_, ?_, ?_, ?_⟩
  · intro o h
    unfold mergedTimeout
    rw [h]
    rfl
  · intro o t h
    unfold mergedTimeout
    rw [h]
    rfl
  · intro hm
    rw [hstep]
    constructor
    · rw [shutdownBody_timerArmed, armTimer_armed_of_zero _ _ hm]
    · obtain ⟨suffix, hst, htr⟩ := shutdownBody_trace_shape s i inst.opts
      rw [htr, armTimer_armed_of_zero _ _ hm]
      show countTimer (s.trace ++ suffix) = countTimer s.trace
      unfold countTimer
      rw [List.countP_append]
      unfold countTimer at hst
      omega
  · intro hm
    rw [hstep]
    constructor
    · rw [shutdownBody_timerArmed]
      exact armTimer_armed_of_nonzero _ _ hm
    · obtain ⟨suffix, hst, htr⟩ := shutdownBody_trace_shape s i inst.opts
      rw [htr, armTimer_trace]
      unfold timerPrefix
      simp [hm]
  · intro s2 hex2 ht2
    unfold step
    simp [hex2, ht2, (processExit_fields s2 1).2.2.2.2.2.2.1]

/-- Witness for (amended) C3: with `timeout: 0`, an effective trigger
leaves the timer unarmed at a concrete state. -/
theorem forced_timeout_behaviour_witness :
    (step (initSt [instZeroTimeout]) (Event.signal 0)).timerArmed
      = (initSt [instZeroTimeout]).timerArmed ∧
    countTimer (step (initSt [instZeroTimeout]) (Event.signal 0)).trace
      = countTimer (initSt [instZeroTimeout]).trace :=
  (forced_timeout_behaviour (initSt [instZeroTimeout]) 0 instZeroTimeout
    (by decide) (by decide) (by decide) (by decide)).2.2.1 (by decide)

/-- C1 counterexample: a concrete run with one idle connection and a
configured, resolving hook.  The trace invokes the hook strictly
before the destroy action of the reap sweep, refuting the claim that the
hook is never invoked before the initial idle-reap sweep has run. -/
theorem hook_invoked_before_reap_cex :
    (run (initSt [instHook]) [Event.connection 0, Event.signal 0]).trace
      = [Action.startTimer 30000, Action.invokeHook, Action.destroySocket 0,
         Action.serverClose 0] ∧
    hookBeforeReap (run (initSt [instHook]) [Event.connection 0, Event.signal 0]).trace
      = true :=
  ⟨by decide, by decide⟩

/-- C1 amended: for a shutdown triggered in non-development mode while
RUNNING with a configured hook whose promise resolves, the appended
trace is: the timer prefix, then `invokeHook`, then only destroy
actions (the idle-reap sweep), then `serverClose` — hook first, then
reap, then close. -/
theorem shutdown_order_hook_then_reap_then_close (s : St) (i : Nat) (inst : Inst)
    (hex : s.exited = none) (hi : s.instances[i]? = some inst)
    (hdev : inst.opts.development = false) (hsd : s.isShuttingDown = false)
    (hk : hookConfigured inst.opts = true)
    (ho : inst.opts.hookOutcome = HookOutcome.resolved) :
    ∃ ds, onlyDestroys ds ∧
      (step s (Event.signal i)).trace
        = s.trace ++ timerPrefix inst.opts ++ [Action.invokeHook] ++ ds
          ++ [Action.serverClose i] := by
  have hstep : step s (Event.signal i) = shutdownBody s i inst.opts := by
    unfold step shutdown
    simp [hex, hi, hdev, hsd]
  rw [hstep]
  exact shutdownBody_trace_hook_resolved s i inst.opts hk ho

/-- Witness for (amended) C1 at a concrete state. -/
theorem shutdown_order_hook_then_reap_then_close_witness :
    ∃ ds, onlyDestroys ds ∧
      (step (run (initSt [instHook]) [Event.connection 0]) (Event.signal 0)).trace
        = (run (initSt [instHook]) [Event.connection 0]).trace ++ timerPrefix optsHook
          ++ [Action.invokeHook] ++ ds ++ [Action.serverClose 0] :=
  shutdown_order_hook_then_reap_then_close (run (initSt [instHook]) [Event.connection 0])
    0 instHook (by decide) (by decide) (by decide) (by decide) (by decide) (by decide)

/-- C2 evaluated at the failing input: with shutdown in progress and
connection 0 busy (and, in `sMixed`, connection 1 idle), the
`counter` counts every iterated entry, not the number reclaimed:
`sBusy` yields counter 1 with 0 destroys (the busy socket survives and
stays registered); `sMixed` yields counter 2 with exactly 1 destroy. -/
theorem cleanup_counter_counts_iterated :
    (cleanupHttp sBusy 0).2 = 1 ∧
    countDestroy (cleanupHttp sBusy 0).1.trace = 0 ∧
    (cleanupHttp sBusy 0).1.connections = [0] ∧
    findSock (cleanupHttp sBusy 0).1 0
      = some { isIdle := false, connectionId := 0, destroyed := false } ∧
    (cleanupHttp sMixed 0).2 = 2 ∧
    countDestroy (cleanupHttp sMixed 0).1.trace = 1 :=
  ⟨by decide, by decide, by decide, by decide, by decide, by decide⟩

theorem mem_of_idx {l : List Inst} {i : Nat} {a : Inst} (h : l[i]? = some a) :
    a ∈ l := by
  obtain ⟨hlt, rfl⟩ := List.getElem?_eq_some.mp h
  exact List.getElem_mem hlt

theorem step_rejected_hook (s : St) (e : Event) (hP : rejectedHookOnly s) :
    rejectedHookOnly (step s e) ∧
    ((step s e).exited = s.exited ∨ (step s e).exited = some 1) ∧
    countClose (step s e).trace = countClose s.trace := by
  have hpres : ∀ x : St, x.instances = s.instances → rejectedHookOnly x := by
    intro x hx
    unfold rejectedHookOnly at hP ⊢
    rw [hx]
    exact hP
  by_cases hex : s.exited.isSome = true
  · obtain ⟨c, hc⟩ := Option.isSome_iff_exists.mp hex
    rw [step_of_exited e hc]
    exact ⟨hP, Or.inl (by rfl), by rfl⟩
  · unfold step
    simp only [hex, Bool.false_eq_true, if_false]
    cases e with
    | connection i =>
      cases hi : s.instances[i]? with
      | none =>
        simp only [hi]
        exact ⟨hP, Or.inl (by first | rfl | simp), by first | rfl | simp⟩
      | some inst =>
        simp only [hi]
        exact ⟨hpres _ rfl, Or.inl (by first | rfl | simp), by first | rfl | simp⟩
    | requestStart id =>
      cases hf : findSock s id with
      | none =>
        simp only [hf]
        exact ⟨hP, Or.inl (by first | rfl | simp), by first | rfl | simp⟩
      | some sock =>
        simp only [hf]
        exact ⟨hpres _ rfl, Or.inl (by rfl), by rfl⟩
    | requestFinish id =>
      cases hf : findSock s id with
      | none =>
        simp only [hf]
        exact ⟨hP, Or.inl (by first | rfl | simp), by first | rfl | simp⟩
      | some sock =>
        simp only [hf]
        obtain ⟨_, _, d3, _, d5, _, _, ds, hds, htr⟩ :=
          destroy_fields (updateSock s id fun sk => { sk with isIdle := true }) id
        refine ⟨hpres _ (d3.trans rfl), Or.inl (d5.trans rfl), ?_⟩
        rw [htr]
        have h0 := countClose_of_onlyDestroys hds
        unfold countClose at h0 ⊢
        rw [List.countP_append]
        show List.countP isCloseA s.trace + List.countP isCloseA ds
            = List.countP isCloseA s.trace
        omega
    | socketClose id =>
      exact ⟨hpres _ rfl, Or.inl (by rfl), by rfl⟩
    | signal i =>
      unfold shutdown
      cases hi : s.instances[i]? with
      | none =>
        simp only [hi]
        exact ⟨hP, Or.inl (by first | rfl | simp), by first | rfl | simp⟩
      | some inst =>
        have hmem : inst ∈ s.instances := mem_of_idx hi
        obtain ⟨hdev, hk, ho, hcc⟩ := hP inst hmem
        by_cases hsd : s.isShuttingDown = true
        · simp only [hi, hdev, Bool.false_eq_true, if_false, hsd, if_true]
          exact ⟨hP, Or.inl (by first | rfl | simp), by first | rfl | simp⟩
        · have hsd2 : s.isShuttingDown = false := Bool.eq_false_iff.mpr hsd
          simp only [hi, hdev, Bool.false_eq_true, if_false, hsd2]
          obtain ⟨r1, r2, r3⟩ := shutdownBody_rejected s i inst.opts hk ho
          exact ⟨hpres _ r1, Or.inl r2, r3⟩
    | timerFire =>
      by_cases ht : s.timerArmed = true
      · simp only [ht, if_true]
        obtain ⟨_, _, _, _, p5, _, p7, _⟩ := processExit_fields s 1
        exact ⟨hpres _ p5, Or.inr p7, processExit_countClose s 1⟩
      · simp only [ht, Bool.false_eq_true, if_false]
        exact ⟨hP, Or.inl (by first | rfl | simp), by first | rfl | simp⟩
    | closeConfirmed i =>
      cases hi : s.instances[i]? with
      | none =>
        simp only [hi]
        exact ⟨hP, Or.inl (by first | rfl | simp), by first | rfl | simp⟩
      | some inst =>
        have hmem : inst ∈ s.instances := mem_of_idx hi
        have hcc : inst.closeCalled = false := (hP inst hmem).2.2.2
        simp only [hi, hcc, Bool.false_eq_true, if_false]
        exact ⟨hP, Or.inl (by first | rfl | simp), by first | rfl | simp⟩

/-- C10: when the configured hook promise of every instance rejects (the
source attaches no rejection handler), then along any event sequence
the `cleanupHttp` continuation never runs — no `serverClose` action is
ever appended, so neither the post-hook reap sweep nor the listening-
socket close executes — the graceful status-0 exit never occurs (the
exit status can only stay unchanged or become the forced 1 from the
timer), and the configuration is preserved. -/
theorem rejected_hook_blocks_cleanup (s : St) (es : List Event)
    (hP : rejectedHookOnly s) :
    rejectedHookOnly (run s es) ∧
    ((run s es).exited = s.exited ∨ (run s es).exited = some 1) ∧
    countClose (run s es).trace = countClose s.trace := by
  induction es generalizing s with
  | nil => exact ⟨hP, Or.inl rfl, rfl⟩
  | cons e es ih =>
    have hrun : run s (e :: es) = run (step s e) es := rfl
    rw [hrun]
    obtain ⟨h1, h2, h3⟩ := step_rejected_hook s e hP
    obtain ⟨g1, g2, g3⟩ := ih (step s e) h1
    refine ⟨g1, ?_, g3.trans h3⟩
    rcases g2 with g | g
    · rw [g]
      exact h2
    · exact Or.inr g

/-- Witness for C10: a rejecting hook at a concrete run — the trigger,
a close confirmation attempt and the timer firing yield the forced
status-1 exit and no `serverClose` ever appears. -/
theorem rejected_hook_blocks_cleanup_witness :
    rejectedHookOnly (run (initSt [instHookRejected])
      [Event.connection 0, Event.signal 0, Event.closeConfirmed 0, Event.timerFire]) ∧
    ((run (initSt [instHookRejected])
        [Event.connection 0, Event.signal 0, Event.closeConfirmed 0, Event.timerFire]).exited
        = (initSt [instHookRejected]).exited ∨
      (run (initSt [instHookRejected])
        [Event.connection 0, Event.signal 0, Event.closeConfirmed 0, Event.timerFire]).exited
        = some 1) ∧
    countClose (run (initSt [instHookRejected])
        [Event.connection 0, Event.signal 0, Event.closeConfirmed 0, Event.timerFire]).trace
      = countClose (initSt [instHookRejected]).trace :=
  rejected_hook_blocks_cleanup (initSt [instHookRejected])
    [Event.connection 0, Event.signal 0, Event.closeConfirmed 0, Event.timerFire]
    (by unfold rejectedHookOnly; decide)

end HttpGracefulShutdown
